import Mathlib

/-!
Verification of the event-stream itinerary extractor and the HTTP layer of
the ai-travel-concierge backend (`backend/vertex_ai_client.py`,
`backend/main.py`), as a shallow embedding in Lean.

Modelling conventions:
* A Python dict whose contents are never inspected (the itinerary payloads)
  is modelled as an association list `Itin := List (String × String)`;
  Python truthiness of such a dict is non-emptiness.
* A field probe `'k' in d and isinstance(d['k'], T)` is modelled as an
  `Option` field: `none` covers both "key absent" and "value of the wrong
  runtime type", which the source treats identically at every probe site.
* Exceptions raised by the remote stream iterator are modelled as an
  explicit `StreamItem.exc` element that aborts iteration.
-/

namespace TC

/-- An itinerary payload: an opaque JSON object, modelled as an association
list.  The extractor never looks inside it beyond dict-ness and emptiness. -/
abbrev Itin := List (String × String)

/-- Python truthiness of an optional dict value: `None` and `{}` are falsy. -/
def itinTruthy : Option Itin → Bool
  | none => false
  | some i => !i.isEmpty

/-- A `function_response` payload inside a content part
(`part['function_response']` when it is a dict): its optional `name` string
and its `response` field when that is present and a dict. -/
structure FnResponse where
  name : Option String := none
  response : Option Itin := none
deriving Repr, DecidableEq

/-- A `tool_code_execution_result` payload inside a content part, reduced to
the only field the source reads: the `itinerary` entry when the payload is a
dict holding a dict under `"itinerary"`. -/
structure ToolResult where
  itinerary : Option Itin := none
deriving Repr, DecidableEq

/-- One element of `event['content']['parts']`.  A part that is not a dict
is a `Part` with all fields `none`. -/
structure Part where
  text : Option String := none
  function_response : Option FnResponse := none
  tool_code_execution_result : Option ToolResult := none
deriving Repr, DecidableEq

/-- One streamed event, reduced to the fields `process_agent_query` probes.
`state_delta_itinerary` stands for `event['actions']['state_delta']['itinerary']`
when that whole chain of dicts is present; `tool_output` .. `output` stand for
`event[k]['itinerary']` when `event[k]` is a dict holding a dict there. -/
structure Event where
  parts : Option (List Part) := none
  state_delta_itinerary : Option Itin := none
  itinerary : Option Itin := none
  tool_output : Option Itin := none
  tool_result : Option Itin := none
  structured_output : Option Itin := none
  output : Option Itin := none
  author : Option String := none
  source_agent : Option String := none
  suggestions : Option (List String) := none
  requires_follow_up : Option Bool := none
  error : Option String := none
  error_message : Option String := none
deriving Repr, DecidableEq

/-- The text fragment a part contributes to the display text:
`part['text']` when present and truthy (non-empty). -/
def partText (p : Part) : List String :=
  match p.text with
  | some s => if s = "" then [] else [s]
  | none => []

/-- The itinerary a part yields through the `function_response` probe: the
`response` dict when the declared function name is `itinerary_agent`. -/
def partFnItin (p : Part) : Option Itin :=
  match p.function_response with
  | some fr => if fr.name = some "itinerary_agent" then fr.response else none
  | none => none

/-- The itinerary a part yields through the `tool_code_execution_result`
probe: the nested `itinerary` dict. -/
def partToolItin (p : Part) : Option Itin :=
  match p.tool_code_execution_result with
  | some tr => tr.itinerary
  | none => none

/-- The scan of `event['content']['parts']` (source lines 107-135): collects
truthy text fragments in order, and stops — `break` — at the first part that
yields an itinerary through the `function_response` probe (even an empty
dict) or, failing that, through the `tool_code_execution_result` probe.
Returns the collected fragments and the itinerary found, if any.  Text of
the breaking part is still collected (the text probe precedes the breaks). -/
def scanParts : List Part → List String × Option Itin
  | [] => ([], none)
  | p :: rest =>
    match partFnItin p with
    | some r => (partText p, some r)
    | none =>
      match partToolItin p with
      | some r => (partText p, some r)
      | none =>
        let tail := scanParts rest
        (partText p ++ tail.1, tail.2)

/-- Step 2 of the per-event search (source lines 141-148): a non-empty
`state_delta` itinerary overwrites `current_event_itinerary`
unconditionally; an empty or absent one leaves it unchanged. -/
def stateDeltaStep (e : Event) (cur : Option Itin) : Option Itin :=
  match e.state_delta_itinerary with
  | some it => if !it.isEmpty then some it else cur
  | none => cur

/-- The nested-key loop of step 3 (source lines 158-164): the first
non-empty itinerary found under `tool_output`/`tool_result`/
`structured_output`/`output`, else the incoming value. -/
def nestedScan : List (Option Itin) → Option Itin → Option Itin
  | [], cur => cur
  | o :: rest, cur =>
    match o with
    | some it => if !it.isEmpty then some it else nestedScan rest cur
    | none => nestedScan rest cur

/-- Step 3 of the per-event search (source lines 151-164): only when
`current_event_itinerary` is falsy, try the top-level `itinerary` field,
then the four nested wrapper keys. -/
def fallbackStep (e : Event) (cur : Option Itin) : Option Itin :=
  if itinTruthy cur then cur
  else
    let cur1 :=
      match e.itinerary with
      | some it => if !it.isEmpty then some it else cur
      | none => cur
    if itinTruthy cur1 then cur1
    else nestedScan [e.tool_output, e.tool_result, e.structured_output, e.output] cur1

/-- The value `current_event_itinerary` holds at source line 166, computed
from a fresh `None` for each event: parts scan, then state delta, then the
fallback probes. -/
def eventItin (e : Event) : Option Itin :=
  fallbackStep e (stateDeltaStep e (scanParts (e.parts.getD [])).2)

/-- The running state of the extraction loop in `process_agent_query`. -/
structure ExtractState where
  texts : List String
  itin : Option Itin
  suggestions : List String
  agents : List String
  followUp : Bool
  error : Option String
deriving Repr, DecidableEq

/-- Add a name to the collected sub-agent set (modelled as a duplicate-free
list in first-seen order). -/
def insertNew (xs : List String) (a : String) : List String :=
  if xs.contains a then xs else xs ++ [a]

/-- The sub-agent name an event contributes: `author` when present as a
string, else `source_agent` (source lines 171-173, an if/elif chain). -/
def eventAgent (e : Event) : Option String :=
  match e.author with
  | some a => some a
  | none => e.source_agent

/-- The error string an event contributes: `error` when present as a string,
else `error_message` (source lines 176-177, an if/elif chain). -/
def eventError (e : Event) : Option String :=
  match e.error with
  | some s => some s
  | none => e.error_message

/-- One iteration of the event loop of `process_agent_query` (source lines
98-177).  Note the two assignments to `collected_structured_itinerary`: one
right after the parts scan (line 137), one after the remaining probes (line
167), each guarded by Python truthiness. -/
def processEvent (st : ExtractState) (e : Event) : ExtractState :=
  let scanned := scanParts (e.parts.getD [])
  let cur1 := scanned.2
  let itin1 := if itinTruthy cur1 then cur1 else st.itin
  let cur3 := fallbackStep e (stateDeltaStep e cur1)
  let itin2 := if itinTruthy cur3 then cur3 else itin1
  { texts := st.texts ++ scanned.1
    itin := itin2
    suggestions := st.suggestions ++ e.suggestions.getD []
    agents :=
      match eventAgent e with
      | some a => insertNew st.agents a
      | none => st.agents
    followUp := e.requires_follow_up.getD st.followUp
    error :=
      match eventError e with
      | some s => some s
      | none => st.error }

/-- The state before any event is consumed (source lines 83-89). -/
def initState : ExtractState :=
  { texts := [], itin := none, suggestions := [], agents := [],
    followUp := false, error := none }

/-- One element of the remote stream: an event, or an exception raised by
the iterator (which aborts the loop; source lines 98 and 180-183). -/
inductive StreamItem where
  | ev (e : Event)
  | exc (msg : String)
deriving Repr, DecidableEq

/-- Drain the stream: fold events into the state until the stream ends or
an exception aborts the loop, in which case the exception text is recorded
and the rest of the stream is never consumed. -/
def runStream : ExtractState → List StreamItem → ExtractState × Option String
  | st, [] => (st, none)
  | st, .ev e :: rest => runStream (processEvent st e) rest
  | st, .exc msg :: _ => (st, some ("ERROR during stream_query: " ++ msg))

/-- The value `process_agent_query` returns (source lines 203-209), minus
the echoed session id and the raw event log, which no claim concerns. -/
structure QueryResult where
  display_text : String
  structured_itinerary_raw : Option Itin
  suggestions : List String
  active_sub_agents : List String
  requires_follow_up : Bool
  error_message : Option String
deriving Repr, DecidableEq

/-- Python `str.strip()`: drop whitespace from both ends. -/
def pyStrip (s : String) : String :=
  ⟨((s.data.dropWhile Char.isWhitespace).reverse.dropWhile Char.isWhitespace).reverse⟩

/-- Python `str.endswith(suffix)`. -/
def pyEndsWith (s suffix : String) : Bool :=
  suffix.data.isSuffixOf s.data

/-- The epilogue of `process_agent_query` (source lines 180-209): join the
text fragments, force the follow-up flag on a trailing question mark when it
is still false, and let a stream exception override any event-set error. -/
def finishResult (st : ExtractState) (streamErr : Option String) : QueryResult :=
  let text := String.join st.texts
  { display_text := text
    structured_itinerary_raw := st.itin
    suggestions := st.suggestions
    active_sub_agents := st.agents
    requires_follow_up :=
      if !st.followUp && pyEndsWith (pyStrip text) "?" then true else st.followUp
    error_message :=
      match streamErr with
      | some m => some m
      | none => st.error }

/-- `process_agent_query` on the initialized path, as a function of the
stream the remote engine yields (the query, session and user arguments only
feed that opaque remote call). -/
def process_agent_query (stream : List StreamItem) : QueryResult :=
  let r := runStream initState stream
  finishResult r.1 r.2

/-- `process_agent_query` on a stream that completes without raising. -/
def processEvents (evs : List Event) : QueryResult :=
  process_agent_query (evs.map .ev)

/-! ### The HTTP layer (`backend/main.py`) -/

/-- The in-memory `_sdk_session_id_cache` dict, as an association list in
which the most recent binding for a key shadows older ones. -/
abbrev SessionCache := List (String × String)

/-- Dict lookup: `cache.get(k)`. -/
def cacheGet (c : SessionCache) (k : String) : Option String :=
  match c.find? (fun kv => kv.1 == k) with
  | some kv => some kv.2
  | none => none

/-- Dict update: `cache[k] = v`. -/
def cacheSet (c : SessionCache) (k v : String) : SessionCache :=
  (k, v) :: c

/-- Python truthiness of an optional string: `None` and `""` are falsy. -/
def strTruthy : Option String → Bool
  | none => false
  | some s => !(s = "")

/-- Outcome of one session-cache resolution in the `/chat` endpoint. -/
structure ResolveResult where
  sessionId : String
  cache : SessionCache
  calledCreate : Bool
deriving Repr, DecidableEq

/-- The miss path of session resolution (main.py lines 105-128):
`create_session` is consulted — `createResult` models its outcome, `none`
standing for a raised exception or a missing `create_session` attribute —
and a truthy returned id is cached, any other outcome caching the
client-managed id instead. -/
def resolveMiss (cache : SessionCache) (userId clientId : String)
    (createResult : Option String) : ResolveResult :=
  let sid :=
    match createResult with
    | some r => if r = "" then clientId else r
    | none => clientId
  { sessionId := sid, cache := cacheSet cache userId sid, calledCreate := true }

/-- Session resolution (main.py lines 103-130): a truthy cached id is
reused without touching the remote service (`if not
sdk_session_id_for_agent_query`, so `None` and `""` both count as a miss);
otherwise the miss path runs.  `calledCreate` records whether the miss path
consulted `create_session`. -/
def resolveSdkSession (cache : SessionCache) (userId clientId : String)
    (createResult : Option String) : ResolveResult :=
  match cacheGet cache userId with
  | some s =>
    if s = "" then resolveMiss cache userId clientId createResult
    else { sessionId := s, cache := cache, calledCreate := false }
  | none => resolveMiss cache userId clientId createResult

/-- How a request handler concludes: a normal return (which FastAPI
serializes with the route's success status, 200 here), or a raised
`HTTPException` carrying its own status. -/
inductive HandlerOutcome (α : Type) where
  | ok (v : α)
  | raised (status : Nat) (detail : String)
deriving Repr, DecidableEq

/-- The HTTP status the framework sends for a handler outcome: a raised
`HTTPException`'s own status, and 200 for any value returned normally. -/
def outcomeHttpStatus {α : Type} : HandlerOutcome α → Nat
  | .ok _ => 200
  | .raised s _ => s

/-- The body `/health` returns: either the plain status report, or an
`HTTPException` object that was returned — not raised — and is therefore
serialized as an ordinary 200 body (main.py lines 228-235; the source
comments "Still return 200 for health check, but with degraded status"). -/
inductive HealthBody where
  | statusReport (status : String) (agentInit clientOk fsInit : Bool)
      (messages : List String)
  | httpExceptionObject (statusCode : Nat) (detailStatus : String)
      (agentInit clientOk fsInit : Bool) (message : String)
deriving Repr, DecidableEq

/-- The degradation messages accumulated by `health_check`. -/
def healthMessages (agentOk fsInit : Bool) : List String :=
  (if !agentOk then ["Agent service initialization pending or failed."] else []) ++
    (if !fsInit then ["Firestore client initialization pending or failed."] else [])

/-- `GET /health` (main.py lines 209-235).  `agentInit` is the module-level
`_fastapi_agent_service_initialized` flag, `clientOk` the client module's
`IS_INITIALIZED` flag (with the module present), `fsInit` the Firestore
flag.  When everything is up it returns the ok report; otherwise it returns
(never raises) an `HTTPException` object with `status_code=503`. -/
def health_check (agentInit clientOk fsInit : Bool) : HandlerOutcome HealthBody :=
  let agentOk := agentInit && clientOk
  if agentOk && fsInit then
    .ok (.statusReport "ok" agentInit clientOk fsInit ["All services nominal."])
  else
    .ok (.httpExceptionObject 503 "degraded" agentInit clientOk fsInit
      (String.intercalate " " (healthMessages agentOk fsInit)))

/-- The `AgentResponse` model `/chat` returns (main.py lines 41-48). -/
structure AgentResponse where
  session_id : String
  display_text : String
  suggestions : Option (List String)
  structured_itinerary : Option Itin
  active_sub_agents : Option (List String)
  requires_follow_up : Bool
  error_message : Option String
deriving Repr, DecidableEq

/-- The client-managed session id (main.py line 97):
`user_input.session_id or str(uuid.uuid4())`. -/
def clientManagedSessionId (reqSessionId : Option String) (freshUuid : String) : String :=
  match reqSessionId with
  | some s => if s = "" then freshUuid else s
  | none => freshUuid

/-- Assembling the `/chat` response from the agent result (main.py lines
138-161).  `validate` models `Itinerary.model_validate` with its
`ValidationError` handler folded in: `none` means validation failed and the
structured field is dropped.  It is consulted only when the raw itinerary is
a truthy dict. -/
def buildAgentResponse (clientId : String) (agent : QueryResult)
    (validate : Itin → Option Itin) : AgentResponse :=
  let parsed : Option Itin :=
    match agent.structured_itinerary_raw with
    | some raw => if !raw.isEmpty then validate raw else none
    | none => none
  { session_id := clientId
    display_text := agent.display_text
    suggestions := some agent.suggestions
    structured_itinerary := parsed
    active_sub_agents := some agent.active_sub_agents
    requires_follow_up := agent.requires_follow_up
    error_message := agent.error_message }

/-- What a `/chat` call leaves behind: the handler outcome and the updated
session cache. -/
structure ChatOutcome where
  outcome : HandlerOutcome AgentResponse
  cache : SessionCache
deriving Repr, DecidableEq

/-- `POST /chat` (main.py lines 88-162).  `serviceInit` gates the two 503
guards; `freshUuid` is the uuid generated when the request carries no truthy
session id; `createResult` models the remote `create_session` outcome and
`stream` the event stream the remote `stream_query` yields for this turn. -/
def chat_with_agent_endpoint (serviceInit : Bool) (cache : SessionCache)
    (reqSessionId : Option String) (freshUuid : String)
    (createResult : Option String) (stream : List StreamItem)
    (validate : Itin → Option Itin) : ChatOutcome :=
  if !serviceInit then
    { outcome := .raised 503 "Agent service not available.", cache := cache }
  else
    let clientId := clientManagedSessionId reqSessionId freshUuid
    let userId := "web_user_" ++ clientId
    let r := resolveSdkSession cache userId clientId createResult
    let agent := process_agent_query stream
    { outcome := .ok (buildAgentResponse clientId agent validate), cache := r.cache }

/-- The response of a `/chat` outcome, when the handler returned normally. -/
def chatResponse? (co : ChatOutcome) : Option AgentResponse :=
  match co.outcome with
  | .ok r => some r
  | .raised _ _ => none

/-! ### Specification-side auxiliary definitions -/

/-- A part at which the parts scan stops: it yields an itinerary through the
`function_response` probe or the `tool_code_execution_result` probe. -/
def partStops (p : Part) : Bool :=
  (partFnItin p).isSome || (partToolItin p).isSome

/-- The parts actually visited by the scan: everything up to and including
the first stopping part. -/
def scannedParts : List Part → List Part
  | [] => []
  | p :: rest => if partStops p then [p] else p :: scannedParts rest

/-- The text fragments an event contributes to the display text. -/
def eventTextFragments (e : Event) : List String :=
  (scannedParts (e.parts.getD [])).flatMap partText

/-- Every text fragment of every part of an event, with no stopping — the
reading the specification asserts for the display text. -/
def allEventTextFragments (e : Event) : List String :=
  (e.parts.getD []).flatMap partText

/-- The itinerary-accumulation recurrence across events: each event's
discovery overwrites the accumulator exactly when it is truthy. -/
def itinAcc : List Event → Option Itin → Option Itin
  | [], acc => acc
  | e :: rest, acc =>
    itinAcc rest (if itinTruthy (eventItin e) then eventItin e else acc)

/-- The value of the last explicit `requires_follow_up` assignment across
the sequence, if any. -/
def lastExplicitFollowUp : List Event → Option Bool
  | [] => none
  | e :: rest =>
    match lastExplicitFollowUp rest with
    | some b => some b
    | none => e.requires_follow_up

/-- The last error string contributed across the sequence, if any. -/
def lastErrorOf : List Event → Option String
  | [] => none
  | e :: rest =>
    match lastErrorOf rest with
    | some s => some s
    | none => eventError e

/-- The sub-agent accumulation recurrence across events. -/
def agentsAcc : List Event → List String → List String
  | [], acc => acc
  | e :: rest, acc =>
    agentsAcc rest
      (match eventAgent e with
       | some a => insertNew acc a
       | none => acc)

/-- An event with its error fields removed, for frame statements. -/
def stripError (e : Event) : Event :=
  { e with error := none, error_message := none }

/-! ### Helper lemmas about the extractor -/

theorem fallbackStep_of_truthy (e : Event) (cur : Option Itin)
    (h : itinTruthy cur = true) : fallbackStep e cur = cur := by
  simp [fallbackStep, h]

theorem stateDeltaStep_truthy (e : Event) (cur : Option Itin)
    (h : itinTruthy cur = true) : itinTruthy (stateDeltaStep e cur) = true := by
  unfold stateDeltaStep
  cases hsd : e.state_delta_itinerary with
  | none => exact h
  | some it =>
    cases hit : it.isEmpty with
    | true => simpa [hit] using h
    | false => simp [hit, itinTruthy]

theorem processEvent_itin (st : ExtractState) (e : Event) :
    (processEvent st e).itin =
      if itinTruthy (eventItin e) then eventItin e else st.itin := by
  unfold processEvent eventItin
  cases h1 : itinTruthy (scanParts (e.parts.getD [])).2 with
  | false => simp [h1]
  | true =>
    have h2 := stateDeltaStep_truthy e _ h1
    have h3 := fallbackStep_of_truthy e _ h2
    simp [h1, h3, h2]

theorem foldl_processEvent_itin :
    ∀ (evs : List Event) (st : ExtractState),
      (evs.foldl processEvent st).itin = itinAcc evs st.itin
  | [], _ => rfl
  | e :: rest, st => by
    rw [List.foldl_cons, foldl_processEvent_itin rest]
    simp only [itinAcc]
    rw [← processEvent_itin]

theorem foldl_processEvent_texts :
    ∀ (evs : List Event) (st : ExtractState),
      (evs.foldl processEvent st).texts =
        st.texts ++ evs.flatMap (fun e => (scanParts (e.parts.getD [])).1)
  | [], st => by simp
  | e :: rest, st => by
    rw [List.foldl_cons, foldl_processEvent_texts rest]
    simp [processEvent, List.flatMap_cons, List.append_assoc]

theorem foldl_processEvent_suggestions :
    ∀ (evs : List Event) (st : ExtractState),
      (evs.foldl processEvent st).suggestions =
        st.suggestions ++ evs.flatMap (fun e => e.suggestions.getD [])
  | [], st => by simp
  | e :: rest, st => by
    rw [List.foldl_cons, foldl_processEvent_suggestions rest]
    simp [processEvent, List.flatMap_cons, List.append_assoc]

theorem foldl_processEvent_followUp :
    ∀ (evs : List Event) (st : ExtractState),
      (evs.foldl processEvent st).followUp =
        match lastExplicitFollowUp evs with
        | some b => b
        | none => st.followUp
  | [], _ => rfl
  | e :: rest, st => by
    rw [List.foldl_cons, foldl_processEvent_followUp rest]
    have hpe : (processEvent st e).followUp = e.requires_follow_up.getD st.followUp := rfl
    rw [hpe]
    cases h : lastExplicitFollowUp rest with
    | some b => simp [lastExplicitFollowUp, h]
    | none =>
      cases hf : e.requires_follow_up with
      | some b => simp [lastExplicitFollowUp, h, hf]
      | none => simp [lastExplicitFollowUp, h, hf]

theorem foldl_processEvent_error :
    ∀ (evs : List Event) (st : ExtractState),
      (evs.foldl processEvent st).error =
        match lastErrorOf evs with
        | some s => some s
        | none => st.error
  | [], _ => rfl
  | e :: rest, st => by
    rw [List.foldl_cons, foldl_processEvent_error rest]
    have hpe : (processEvent st e).error =
        match eventError e with
        | some s => some s
        | none => st.error := rfl
    rw [hpe]
    cases h : lastErrorOf rest with
    | some s => simp [lastErrorOf, h]
    | none =>
      cases hf : eventError e with
      | some s => simp [lastErrorOf, h, hf]
      | none => simp [lastErrorOf, h, hf]

theorem foldl_processEvent_agents :
    ∀ (evs : List Event) (st : ExtractState),
      (evs.foldl processEvent st).agents = agentsAcc evs st.agents
  | [], _ => rfl
  | e :: rest, st => by
    rw [List.foldl_cons, foldl_processEvent_agents rest]
    have hpe : (processEvent st e).agents =
        match eventAgent e with
        | some a => insertNew st.agents a
        | none => st.agents := rfl
    rw [hpe]
    simp only [agentsAcc]

theorem runStream_map_ev :
    ∀ (evs : List Event) (st : ExtractState),
      runStream st (evs.map .ev) = (evs.foldl processEvent st, none)
  | [], _ => rfl
  | e :: rest, st => runStream_map_ev rest (processEvent st e)

theorem runStream_append_exc :
    ∀ (evs : List Event) (st : ExtractState) (msg : String) (rest : List StreamItem),
      runStream st (evs.map .ev ++ .exc msg :: rest) =
        (evs.foldl processEvent st, some ("ERROR during stream_query: " ++ msg))
  | [], _, _, _ => rfl
  | e :: evs, st, msg, rest => runStream_append_exc evs (processEvent st e) msg rest

theorem processEvents_eq (evs : List Event) :
    processEvents evs = finishResult (evs.foldl processEvent initState) none := by
  unfold processEvents process_agent_query
  rw [runStream_map_ev]

theorem scanParts_fst :
    ∀ ps : List Part, (scanParts ps).1 = (scannedParts ps).flatMap partText
  | [] => rfl
  | p :: rest => by
    unfold scanParts scannedParts partStops
    cases hf : partFnItin p with
    | some r => simp [hf]
    | none =>
      cases ht : partToolItin p with
      | some r => simp [hf, ht]
      | none => simp [hf, ht, scanParts_fst rest]

theorem eventItin_stripError (e : Event) :
    eventItin (stripError e) = eventItin e := rfl

theorem eventAgent_stripError (e : Event) :
    eventAgent (stripError e) = eventAgent e := rfl

theorem itinAcc_map_stripError :
    ∀ (evs : List Event) (acc : Option Itin),
      itinAcc (evs.map stripError) acc = itinAcc evs acc
  | [], _ => rfl
  | e :: rest, acc => by
    simp only [List.map_cons, itinAcc, eventItin_stripError]
    exact itinAcc_map_stripError rest _

theorem agentsAcc_map_stripError :
    ∀ (evs : List Event) (acc : List String),
      agentsAcc (evs.map stripError) acc = agentsAcc evs acc
  | [], _ => rfl
  | e :: rest, acc => by
    simp only [List.map_cons, agentsAcc, eventAgent_stripError]
    exact agentsAcc_map_stripError rest _

theorem flatMap_map_stripError {α : Type} (f : Event → List α)
    (hf : ∀ e, f (stripError e) = f e) :
    ∀ evs : List Event, (evs.map stripError).flatMap f = evs.flatMap f
  | [] => rfl
  | e :: rest => by
    simp only [List.map_cons, List.flatMap_cons, hf e,
      flatMap_map_stripError f hf rest]

theorem itinAcc_append (xs ys : List Event) (acc : Option Itin) :
    itinAcc (xs ++ ys) acc = itinAcc ys (itinAcc xs acc) := by
  induction xs generalizing acc with
  | nil => rfl
  | cons e rest ih =>
    simp only [List.cons_append, itinAcc]
    exact ih _

theorem itinAcc_of_all_false :
    ∀ (evs : List Event) (acc : Option Itin),
      (∀ e ∈ evs, itinTruthy (eventItin e) = false) → itinAcc evs acc = acc
  | [], _, _ => rfl
  | e :: rest, acc, h => by
    have he : itinTruthy (eventItin e) = false := h e (by simp)
    simp only [itinAcc, he, Bool.false_eq_true, if_false]
    exact itinAcc_of_all_false rest acc fun x hx => h x (by simp [hx])

theorem bool_follow_force (a b : Bool) :
    (if !a && b then true else a) = (a || b) := by
  cases a <;> cases b <;> rfl

theorem processEvents_itin_eq (evs : List Event) :
    (processEvents evs).structured_itinerary_raw = itinAcc evs none := by
  rw [processEvents_eq]
  show (evs.foldl processEvent initState).itin = _
  rw [foldl_processEvent_itin]
  rfl

theorem finishResult_follow (st : ExtractState) (err : Option String) :
    (finishResult st err).requires_follow_up =
      (st.followUp || pyEndsWith (pyStrip (String.join st.texts)) "?") := by
  show (if !st.followUp && pyEndsWith (pyStrip (String.join st.texts)) "?"
      then true else st.followUp) = _
  exact bool_follow_force _ _

theorem processEvents_display_eq (evs : List Event) :
    (processEvents evs).display_text =
      String.join (evs.flatMap eventTextFragments) := by
  rw [processEvents_eq]
  show String.join (evs.foldl processEvent initState).texts = _
  rw [foldl_processEvent_texts]
  have h : ∀ e : Event, (scanParts (e.parts.getD [])).1 = eventTextFragments e :=
    fun e => scanParts_fst _
  simp only [initState, List.nil_append, h]

theorem processEvents_error_eq (evs : List Event) :
    (processEvents evs).error_message = lastErrorOf evs := by
  rw [processEvents_eq]
  show (evs.foldl processEvent initState).error = _
  rw [foldl_processEvent_error]
  cases h : lastErrorOf evs <;> rfl

theorem processEvents_suggestions_eq (evs : List Event) :
    (processEvents evs).suggestions =
      evs.flatMap (fun e => e.suggestions.getD []) := by
  rw [processEvents_eq]
  show (evs.foldl processEvent initState).suggestions = _
  rw [foldl_processEvent_suggestions]
  simp only [initState, List.nil_append]

theorem processEvents_agents_eq (evs : List Event) :
    (processEvents evs).active_sub_agents = agentsAcc evs [] := by
  rw [processEvents_eq]
  show (evs.foldl processEvent initState).agents = _
  rw [foldl_processEvent_agents]
  rfl

/-! ### Concrete inputs used by counterexamples and witnesses -/

/-- A content part that is a `function_response` of `itinerary_agent`
carrying the non-empty itinerary `R`. -/
def fnRespPartR : Part :=
  { function_response := some { name := some "itinerary_agent", response := some [("plan", "R")] } }

/-- A content part carrying plain text `"hello"`. -/
def helloPart : Part := { text := some "hello" }

/-- An event carrying both the function-response itinerary `R` (path a) and
a distinct non-empty state-delta itinerary `S` (path b). -/
def eventRandS : Event :=
  { parts := some [fnRespPartR], state_delta_itinerary := some [("plan", "S")] }

/-- An event whose parts are the itinerary-bearing part followed by a text
part. -/
def eventFnThenText : Event :=
  { parts := some [fnRespPartR, helloPart] }

/-- An event carrying only a top-level itinerary `{"a": v}`. -/
def topItinEvent (v : String) : Event := { itinerary := some [("a", v)] }

/-! ### Claims -/

/-- C1, counterexample: an event carrying both a non-empty
`function_response` itinerary `R` (declared name `itinerary_agent`) and a
distinct non-empty `state_delta` itinerary `S` yields `S`, not `R`: the
state-delta probe (source line 141) runs unconditionally after the parts
scan and overwrites its finding, so path (b) takes precedence over path (a),
contrary to the claimed priority order. -/
theorem C1_counterexample :
    (processEvents [eventRandS]).structured_itinerary_raw = some [("plan", "S")]
    ∧ ([("plan", "S")] : Itin) ≠ [("plan", "R")]
    ∧ (scanParts [fnRespPartR]).2 = some [("plan", "R")] :=
  ⟨by decide, by decide, by decide⟩

/-- C1, amended: within one event a non-empty state-delta itinerary takes
precedence over every other discovery path — whenever an event carries a
non-empty `state_delta` itinerary `S`, the itinerary captured from that
event is `S`, whatever its parts carry and whatever was captured before. -/
theorem C1_state_delta_overrides (e : Event) (S : Itin) (st : ExtractState)
    (hS : e.state_delta_itinerary = some S) (hne : S ≠ []) :
    (processEvent st e).itin = some S := by
  have hempty : S.isEmpty = false := by
    cases S with
    | nil => exact absurd rfl hne
    | cons a l => rfl
  simp [processEvent, stateDeltaStep, fallbackStep, hS, hempty, itinTruthy]

/-- Witness for `C1_state_delta_overrides` at the concrete event of the
counterexample: the state-delta itinerary wins. -/
theorem C1_state_delta_overrides_witness :
    (processEvent initState eventRandS).itin = some [("plan", "S")] :=
  C1_state_delta_overrides _ _ _ rfl (by decide)

/-- C2: across a finite event sequence, (1) if no event carries a non-empty
itinerary by any discovery path the result is `none`, never an empty
mapping; (2) appending an event whose discovery is empty or absent never
changes a previously captured value; (3) for two events both carrying
distinct non-empty itineraries, the final value is the later one. -/
theorem C2_itinerary_accumulation :
    (∀ evs : List Event, (∀ e ∈ evs, itinTruthy (eventItin e) = false) →
      (processEvents evs).structured_itinerary_raw = none)
  ∧ (∀ (evs : List Event) (e : Event), itinTruthy (eventItin e) = false →
      (processEvents (evs ++ [e])).structured_itinerary_raw =
        (processEvents evs).structured_itinerary_raw)
  ∧ (∀ e1 e2 : Event, itinTruthy (eventItin e1) = true →
      itinTruthy (eventItin e2) = true → eventItin e1 ≠ eventItin e2 →
      (processEvents [e1, e2]).structured_itinerary_raw = eventItin e2) := by
  refine ⟨fun evs h => ?_, fun evs e he => ?_, fun e1 e2 h1 h2 hne => ?_⟩
  · rw [processEvents_itin_eq]
    exact itinAcc_of_all_false evs none h
  · rw [processEvents_itin_eq, processEvents_itin_eq, itinAcc_append]
    simp [itinAcc, he]
  · rw [processEvents_itin_eq]
    simp [itinAcc, h1, h2]

/-- Witness for `C2_itinerary_accumulation`: each conjunct applied at
concrete events (an itinerary-free event; a top-level itinerary followed by
an itinerary-free event; two distinct top-level itineraries). -/
theorem C2_itinerary_accumulation_witness :
    (processEvents [({} : Event)]).structured_itinerary_raw = none
  ∧ (processEvents ([topItinEvent "1"] ++ [({} : Event)])).structured_itinerary_raw =
      (processEvents [topItinEvent "1"]).structured_itinerary_raw
  ∧ (processEvents [topItinEvent "1", topItinEvent "2"]).structured_itinerary_raw =
      eventItin (topItinEvent "2") :=
  ⟨C2_itinerary_accumulation.1 _ (by decide),
   C2_itinerary_accumulation.2.1 _ _ (by decide),
   C2_itinerary_accumulation.2.2 _ _ (by decide) (by decide) (by decide)⟩

/-- C3, counterexample: in an event whose parts are an itinerary-bearing
`function_response` part followed by a text part `"hello"`, the `break` at
source line 120 abandons the parts loop, so the returned display text is
`""` although the event's parts contain the non-empty text fragment
`"hello"` — refuting "no text part of any event is omitted". -/
theorem C3_counterexample :
    (processEvents [eventFnThenText]).display_text = ""
  ∧ String.join (allEventTextFragments eventFnThenText) = "hello"
  ∧ ("" : String) ≠ "hello" :=
  ⟨by decide, by decide, by decide⟩

/-- C3, amended: the display text equals the ordered concatenation, across
events and across parts within an event, of every non-empty text fragment —
restricted, within each event, to the parts up to and including the first
part that yields an itinerary through the `function_response` or
`tool_code_execution_result` probe (the scan `break`s there); with zero
fragments it is the empty string, not absent. -/
theorem C3_display_text (evs : List Event) :
    (processEvents evs).display_text =
      String.join (evs.flatMap eventTextFragments) :=
  processEvents_display_eq evs

/-- C4, counterexample: the source assigns, rather than or-accumulates, each
explicit `requires_follow_up` value (line 175), so with one event setting
`true` and a later one setting `false` — and no trailing question mark — the
returned flag is `false`, while the claim requires `true` because an event
(indeed two) explicitly set the boolean field. -/
theorem C4_counterexample :
    (processEvents [{ requires_follow_up := some true },
      { requires_follow_up := some false }]).requires_follow_up = false
    ∧ false ≠ true :=
  ⟨by decide, by decide⟩

/-- C4, amended: `requires_follow_up` equals the value of the *last* event
that explicitly set the boolean field (`false` when none did), or-ed with
whether the final trimmed display text ends in a question mark — so a last
explicit `false` is still overridden by a trailing `?`, and an explicit
`true` never is. -/
theorem C4_follow_up_flag (evs : List Event) :
    (processEvents evs).requires_follow_up =
      ((lastExplicitFollowUp evs).getD false
        || pyEndsWith (pyStrip (processEvents evs).display_text) "?") := by
  rw [processEvents_eq, finishResult_follow]
  have hd : (finishResult (evs.foldl processEvent initState) none).display_text =
      String.join (evs.foldl processEvent initState).texts := rfl
  rw [hd, foldl_processEvent_followUp]
  cases h : lastExplicitFollowUp evs with
  | some b => simp
  | none => simp [initState]

/-- C5, counterexample: two events carrying error strings `"e1"` then
`"e2"`: the source overwrites `error_message_text` on every match (lines
176-177), so the result carries the *last* error `"e2"`, while the claim
requires the first, `"e1"`. -/
theorem C5_counterexample :
    (processEvents [({ error := some "e1" } : Event),
      ({ error := some "e2" } : Event)]).error_message = some "e2"
    ∧ (some "e2" : Option String) ≠ some "e1" :=
  ⟨by decide, by decide⟩

/-- C5, amended: `error_message` equals the *last* error string encountered
across the event sequence (within one event, `error` preferred over
`error_message`), and surfacing it does not suppress the display text,
structured itinerary, suggestions, or sub-agent names collected from the
events: those four outputs coincide with the ones computed from the same
sequence with all error fields removed. -/
theorem C5_error_reporting (evs : List Event) :
    (processEvents evs).error_message = lastErrorOf evs
  ∧ (processEvents evs).display_text = (processEvents (evs.map stripError)).display_text
  ∧ (processEvents evs).structured_itinerary_raw =
      (processEvents (evs.map stripError)).structured_itinerary_raw
  ∧ (processEvents evs).suggestions = (processEvents (evs.map stripError)).suggestions
  ∧ (processEvents evs).active_sub_agents =
      (processEvents (evs.map stripError)).active_sub_agents := by
  refine ⟨processEvents_error_eq evs, ?_, ?_, ?_, ?_⟩
  · rw [processEvents_display_eq, processEvents_display_eq,
      flatMap_map_stripError eventTextFragments (fun e => rfl)]
  · rw [processEvents_itin_eq, processEvents_itin_eq, itinAcc_map_stripError]
  · rw [processEvents_suggestions_eq, processEvents_suggestions_eq,
      flatMap_map_stripError (fun e => e.suggestions.getD []) (fun e => rfl)]
  · rw [processEvents_agents_eq, processEvents_agents_eq, agentsAcc_map_stripError]

/-- C6: when the remote stream raises after yielding a prefix of events,
`process_agent_query` neither propagates nor retries: iteration stops at
the exception (the suffix is never consumed), the display text, itinerary,
suggestions and sub-agent names collected from the consumed prefix are
returned unchanged, and `error_message` is the string describing the
exception. -/
theorem C6_midstream_exception (evs : List Event) (msg : String)
    (rest : List StreamItem) :
    (process_agent_query (evs.map .ev ++ .exc msg :: rest)).display_text =
      (processEvents evs).display_text
  ∧ (process_agent_query (evs.map .ev ++ .exc msg :: rest)).structured_itinerary_raw =
      (processEvents evs).structured_itinerary_raw
  ∧ (process_agent_query (evs.map .ev ++ .exc msg :: rest)).suggestions =
      (processEvents evs).suggestions
  ∧ (process_agent_query (evs.map .ev ++ .exc msg :: rest)).active_sub_agents =
      (processEvents evs).active_sub_agents
  ∧ (process_agent_query (evs.map .ev ++ .exc msg :: rest)).error_message =
      some ("ERROR during stream_query: " ++ msg) := by
  have hq : process_agent_query (evs.map .ev ++ .exc msg :: rest) =
      finishResult (evs.foldl processEvent initState)
        (some ("ERROR during stream_query: " ++ msg)) := by
    unfold process_agent_query
    rw [runStream_append_exc]
  rw [hq, processEvents_eq]
  exact ⟨rfl, rfl, rfl, rfl, rfl⟩

/-! ### Helper lemmas about the session cache -/

theorem cacheGet_set (c : SessionCache) (k v : String) :
    cacheGet (cacheSet c k v) k = some v := by
  simp [cacheGet, cacheSet, List.find?]

theorem resolveMiss_props (cache : SessionCache) (u cid : String)
    (cr : Option String) (hcid : cid ≠ "") :
    (resolveMiss cache u cid cr).sessionId ≠ "" ∧
    cacheGet (resolveMiss cache u cid cr).cache u =
      some (resolveMiss cache u cid cr).sessionId := by
  unfold resolveMiss
  cases cr with
  | none => exact ⟨hcid, cacheGet_set cache u cid⟩
  | some r =>
    by_cases hr : r = ""
    · constructor
      · simp only [hr, if_pos rfl]
        exact hcid
      · simp only [hr, if_pos rfl]
        exact cacheGet_set cache u cid
    · constructor
      · simp only [if_neg hr]
        exact hr
      · simp only [if_neg hr]
        exact cacheGet_set cache u r

theorem resolve_lookup (cache : SessionCache) (u cid : String)
    (cr : Option String) (hcid : cid ≠ "") :
    cacheGet (resolveSdkSession cache u cid cr).cache u =
      some (resolveSdkSession cache u cid cr).sessionId ∧
    (resolveSdkSession cache u cid cr).sessionId ≠ "" := by
  unfold resolveSdkSession
  cases hc : cacheGet cache u with
  | none =>
    obtain ⟨h1, h2⟩ := resolveMiss_props cache u cid cr hcid
    exact ⟨h2, h1⟩
  | some s =>
    by_cases hs : s = ""
    · obtain ⟨h1, h2⟩ := resolveMiss_props cache u cid cr hcid
      constructor
      · simp only [hs, if_pos rfl]
        exact h2
      · simp only [hs, if_pos rfl]
        exact h1
    · constructor
      · simp only [if_neg hs]
        exact hc
      · simp only [if_neg hs]
        exact hs

theorem resolve_hit (cache : SessionCache) (u cid : String) (cr : Option String)
    (s : String) (hs : cacheGet cache u = some s) (hne : s ≠ "") :
    resolveSdkSession cache u cid cr =
      { sessionId := s, cache := cache, calledCreate := false } := by
  unfold resolveSdkSession
  rw [hs]
  simp [hne]

/-- C7: session resolution is idempotent per identity: whatever the first
resolution for `userId` returned (a remote-created id, or the client id as
fallback), a second resolution for the same identity returns exactly the id
the first one produced, leaves the cache unchanged, and does not consult
`create_session` — even when `create_session` would now return a different
id (`c2` is arbitrary).  The hypothesis reflects main.py line 97: the
client-managed id is never the empty string. -/
theorem C7_session_cache_idempotent (cache : SessionCache)
    (userId clientId : String) (c1 c2 : Option String) (hcid : clientId ≠ "") :
    (resolveSdkSession (resolveSdkSession cache userId clientId c1).cache
        userId clientId c2).sessionId =
      (resolveSdkSession cache userId clientId c1).sessionId
  ∧ (resolveSdkSession (resolveSdkSession cache userId clientId c1).cache
        userId clientId c2).calledCreate = false
  ∧ (resolveSdkSession (resolveSdkSession cache userId clientId c1).cache
        userId clientId c2).cache =
      (resolveSdkSession cache userId clientId c1).cache := by
  obtain ⟨hlook, hne⟩ := resolve_lookup cache userId clientId c1 hcid
  rw [resolve_hit _ _ clientId c2 _ hlook hne]
  exact ⟨rfl, rfl, rfl⟩

/-- Witness for `C7_session_cache_idempotent`: an empty cache, a first
resolution that caches the remote id `"sdk-1"`, and a second call whose
hypothetical remote outcome `"sdk-2"` is ignored. -/
theorem C7_session_cache_idempotent_witness :
    (resolveSdkSession (resolveSdkSession [] "web_user_x" "x" (some "sdk-1")).cache
        "web_user_x" "x" (some "sdk-2")).sessionId =
      (resolveSdkSession [] "web_user_x" "x" (some "sdk-1")).sessionId
  ∧ (resolveSdkSession (resolveSdkSession [] "web_user_x" "x" (some "sdk-1")).cache
        "web_user_x" "x" (some "sdk-2")).calledCreate = false
  ∧ (resolveSdkSession (resolveSdkSession [] "web_user_x" "x" (some "sdk-1")).cache
        "web_user_x" "x" (some "sdk-2")).cache =
      (resolveSdkSession [] "web_user_x" "x" (some "sdk-1")).cache :=
  C7_session_cache_idempotent [] "web_user_x" "x" (some "sdk-1") (some "sdk-2") (by decide)

/-- C8, counterexample: with every dependency uninitialized, `health_check`
returns — rather than raises — its `HTTPException`, so the actual HTTP
status of the response is 200, not the claimed 503 (main.py line 235, and
the source's own comment "Still return 200 for health check"). -/
theorem C8_counterexample :
    outcomeHttpStatus (health_check false false false) = 200
    ∧ (200 : Nat) ≠ 503 :=
  ⟨rfl, by decide⟩

/-- C8, amended: `GET /health` never raises.  When any dependency is
uninitialized it returns (with HTTP status 200) a body that is an
`HTTPException` object carrying `status_code` 503, the degraded flags and
the joined failure messages; when all dependencies are initialized it
returns the ok status/flags body. -/
theorem C8_health_check_status (a c f : Bool) :
    (((a && c) && f) = false →
      health_check a c f = .ok (.httpExceptionObject 503 "degraded" a c f
        (String.intercalate " " (healthMessages (a && c) f)))
      ∧ outcomeHttpStatus (health_check a c f) = 200)
  ∧ (((a && c) && f) = true →
      health_check a c f = .ok (.statusReport "ok" a c f ["All services nominal."])) := by
  have hz : health_check a c f = (if ((a && c) && f) = true
      then HandlerOutcome.ok (.statusReport "ok" a c f ["All services nominal."])
      else HandlerOutcome.ok (.httpExceptionObject 503 "degraded" a c f
        (String.intercalate " " (healthMessages (a && c) f)))) := rfl
  constructor
  · intro h
    constructor
    · rw [hz, h, if_neg Bool.false_ne_true]
    · rw [hz, h, if_neg Bool.false_ne_true]
      rfl
  · intro h
    rw [hz, h, if_pos rfl]

/-- Witness for `C8_health_check_status`: the Firestore-down case returns
the 503-labelled body with HTTP status 200, and the all-up case returns the
ok report. -/
theorem C8_health_check_status_witness :
    (health_check true true false = .ok (.httpExceptionObject 503 "degraded"
        true true false (String.intercalate " " (healthMessages (true && true) false)))
      ∧ outcomeHttpStatus (health_check true true false) = 200)
  ∧ health_check true true true =
      .ok (.statusReport "ok" true true true ["All services nominal."]) :=
  ⟨(C8_health_check_status true true false).1 (by decide),
   (C8_health_check_status true true true).2 (by decide)⟩

/-- C9: when the raw itinerary extracted from the stream fails schema
validation (`val` rejects whatever raw value the extractor produced), the
`/chat` handler still returns normally (no hard failure), its
`structured_itinerary` is `none`, and every other response field is exactly
what any other validator outcome `val'` would have produced. -/
theorem C9_validation_failure_degrades (cache : SessionCache)
    (rs : Option String) (uuid : String) (cr : Option String)
    (stream : List StreamItem) (val val' : Itin → Option Itin)
    (hfail : ∀ raw, (process_agent_query stream).structured_itinerary_raw = some raw →
      val raw = none) :
    ∃ r r',
      chatResponse? (chat_with_agent_endpoint true cache rs uuid cr stream val) = some r
      ∧ chatResponse? (chat_with_agent_endpoint true cache rs uuid cr stream val') = some r'
      ∧ r.structured_itinerary = none
      ∧ r.session_id = r'.session_id ∧ r.display_text = r'.display_text
      ∧ r.suggestions = r'.suggestions ∧ r.active_sub_agents = r'.active_sub_agents
      ∧ r.requires_follow_up = r'.requires_follow_up
      ∧ r.error_message = r'.error_message := by
  refine ⟨_, _, rfl, rfl, ?_, rfl, rfl, rfl, rfl, rfl, rfl⟩
  cases h : (process_agent_query stream).structured_itinerary_raw with
  | none => simp [buildAgentResponse, h]
  | some raw =>
    cases hemp : raw.isEmpty with
    | true => simp [buildAgentResponse, h, hemp]
    | false => simp [buildAgentResponse, h, hemp, hfail raw h]

/-- Witness for `C9_validation_failure_degrades`: a stream carrying the
top-level itinerary `{"a": "1"}`, an always-failing validator against an
accepting one. -/
theorem C9_validation_failure_degrades_witness :
    ∃ r r',
      chatResponse? (chat_with_agent_endpoint true [] (some "X") "u" none
        [.ev (topItinEvent "1")] (fun _ => none)) = some r
      ∧ chatResponse? (chat_with_agent_endpoint true [] (some "X") "u" none
        [.ev (topItinEvent "1")] some) = some r'
      ∧ r.structured_itinerary = none
      ∧ r.session_id = r'.session_id ∧ r.display_text = r'.display_text
      ∧ r.suggestions = r'.suggestions ∧ r.active_sub_agents = r'.active_sub_agents
      ∧ r.requires_follow_up = r'.requires_follow_up
      ∧ r.error_message = r'.error_message :=
  C9_validation_failure_degrades [] (some "X") "u" none [.ev (topItinEvent "1")]
    (fun _ => none) some (fun _ _ => rfl)

/-- C10: the `session_id` field of every `/chat` response is the
client-managed session id — the request's `session_id` when truthy, else
the freshly generated uuid — independently of the cache contents, the
remote `create_session` outcome and the stream; in particular a client that
supplies a non-empty id `X` always receives `X` back, never the internal
SDK session id that was resolved and passed to `stream_query`. -/
theorem C10_session_id_echo (cache : SessionCache) (rs : Option String)
    (uuid : String) (cr : Option String) (stream : List StreamItem)
    (val : Itin → Option Itin) :
    ((chatResponse? (chat_with_agent_endpoint true cache rs uuid cr stream val)).map
        (fun r => r.session_id) = some (clientManagedSessionId rs uuid))
  ∧ (∀ X : String, rs = some X → X ≠ "" →
      (chatResponse? (chat_with_agent_endpoint true cache rs uuid cr stream val)).map
        (fun r => r.session_id) = some X) := by
  constructor
  · rfl
  · intro X hX hne
    subst hX
    show some (clientManagedSessionId (some X) uuid) = some X
    simp [clientManagedSessionId, hne]

/-- Witness for `C10_session_id_echo`: the client supplies `"X"` while the
remote session machinery resolves `"sdk-9"`; the response still carries
`"X"`. -/
theorem C10_session_id_echo_witness :
    ((chatResponse? (chat_with_agent_endpoint true [] (some "X") "u" (some "sdk-9")
        [] (fun i => some i))).map (fun r => r.session_id) =
      some (clientManagedSessionId (some "X") "u"))
  ∧ (chatResponse? (chat_with_agent_endpoint true [] (some "X") "u" (some "sdk-9")
        [] (fun i => some i))).map (fun r => r.session_id) = some "X" :=
  ⟨(C10_session_id_echo [] (some "X") "u" (some "sdk-9") [] (fun i => some i)).1,
   (C10_session_id_echo [] (some "X") "u" (some "sdk-9") [] (fun i => some i)).2
     "X" rfl (by decide)⟩

end TC

